import Mathlib

/-!
Verification development for the LifeVault wallet-authentication frontend.

The repository holds two coexisting wallet-context implementations:
* the SDK-backed variant (`src/context/WalletContext.tsx`), embedded below
  under the source function names (`authenticateWithWallet`, ...), and
* the hand-rolled variant (an unnamed context file built on
  `walletService`), embedded with a `P0` suffix
  (`authenticateWithWalletP0`, ...).

External collaborators (the Aptos wallet adapter, the `walletService`
module, the HTTP backend) are modelled by explicit outcome parameters:
each awaited external call is an `Except JsError _` value supplied in an
environment record, and `localStorage` is an explicit association list
threaded through the functions.  JavaScript string falsiness (both
`undefined` and `""` are falsy in an `a || b` chain) is modelled by
`jsTruthy` over `Option String`.
-/

/-- A JavaScript error value as observed by the `catch` blocks of the
source: its own `message` field (absent when a non-`Error` value was
thrown), the backend payload message `error.response?.data?.message`,
and the HTTP status `error.response?.status`. -/
structure JsError where
  message : Option String
  respDataMessage : Option String
  respStatus : Option Nat
deriving Repr, DecidableEq

/-- JS truthiness of an optional string: `undefined` and `""` are falsy. -/
def jsTruthy : Option String → Bool
  | none => false
  | some s => !(s = "")

/-- The JS `a || b` chain on two optional strings. -/
def jsOr (a b : Option String) : Option String :=
  if jsTruthy a then a else b

/-- The JS `a || d` chain whose last operand is a non-empty literal. -/
def jsOrDefault (a : Option String) (d : String) : String :=
  if jsTruthy a then a.getD d else d

/-- The error message computed by the SDK variant catch blocks:
`error.response?.data?.message || error.message || fallback`. -/
def catchMessage (e : JsError) (fallback : String) : String :=
  jsOrDefault (jsOr e.respDataMessage e.message) fallback

/-- A wallet account as exposed by the provider: address and public key. -/
structure Account where
  address : String
  publicKey : String
deriving Repr, DecidableEq

/-- The value returned by a successful provider `signMessage` call. -/
structure SignResult where
  signature : String
  fullMessage : String
  nonce : String
deriving Repr, DecidableEq

/-- The body posted to `/auth/wallet` and `/auth/link-wallet`. -/
structure VerifyRequest where
  address : String
  publicKey : Option String
  signature : String
  fullMessage : String
  nonce : String
deriving Repr, DecidableEq

/-- The `{ success, token?, error? }` result contract surfaced by
`authenticateWithWallet` and `linkWalletToAccount`. -/
structure AuthResult where
  success : Bool
  token : Option String
  error : Option String
deriving Repr, DecidableEq

/-- `localStorage`, modelled as an association list of string keys. -/
abbrev Store := List (String × String)

/-- `localStorage.setItem k v`. -/
def setItem (store : Store) (k v : String) : Store :=
  (k, v) :: store.filter (fun p => p.1 ≠ k)

/-- `localStorage.getItem k`. -/
def getItem (store : Store) (k : String) : Option String :=
  (store.find? (fun p => p.1 = k)).map (fun p => p.2)

/-- `localStorage.removeItem k`. -/
def removeItem (store : Store) (k : String) : Store :=
  store.filter (fun p => p.1 ≠ k)

/-! ## SDK-backed variant (`src/context/WalletContext.tsx`) -/

/-- React state captured by the SDK-variant callbacks at call time:
`connected` and `account` from the Aptos wallet adapter hook.  Inside one
invocation these closure-captured values never change, even after an
`await connect()`. -/
structure SdkState where
  connected : Bool
  account : Option Account
deriving Repr, DecidableEq

/-- Outcomes of the external calls awaited by the SDK variant:
the adapter connect, the adapter signMessage, `POST /auth/wallet`
(whose success body carries `response.data.data.token`), and
`POST /auth/link-wallet`; plus the `Date.now()` reading used for the
challenge timestamp. -/
structure SdkEnv where
  aptosConnect : Except JsError Unit
  aptosSign : Except JsError SignResult
  apiVerifyAuth : Except JsError String
  apiVerifyLink : Except JsError Unit
  timestamp : Nat
deriving Repr

/-- Result of one SDK-variant call, with a trace of which external
operations were invoked. -/
structure SdkOutcome where
  res : AuthResult
  store : Store
  connectInvoked : Bool
  signProviderInvoked : Bool
  verifyRequest : Option VerifyRequest
deriving Repr, DecidableEq

/-- `generateAuthMessage` of the SDK variant (the login challenge). -/
def generateAuthMessage (address : String) (timestamp : Nat) : String :=
  "Sign this message to authenticate with LifeVault.\n\nWallet: " ++ address
    ++ "\nTimestamp: " ++ toString timestamp
    ++ "\n\nThis signature will not trigger any blockchain transaction or cost any gas fees."

/-- The link challenge message built inline by `linkWalletToAccount`. -/
def linkAuthMessage (address : String) (timestamp : Nat) : String :=
  "Link this wallet to your LifeVault account.\n\nWallet: " ++ address
    ++ "\nTimestamp: " ++ toString timestamp

/-- The `signMessage` callback of the SDK variant: throws
`Error('Wallet not connected')` unless `connected` and `account` are both
set, otherwise forwards to the adapter.  The second component records
whether the provider sign capability was invoked. -/
def signMessage (st : SdkState) (env : SdkEnv) (_message : String) :
    Except JsError SignResult × Bool :=
  if !st.connected || st.account.isNone then
    (Except.error ⟨some "Wallet not connected", none, none⟩, false)
  else
    (env.aptosSign, true)

/-- The tail of `authenticateWithWallet` after the optional connect
attempt: reads the closure-captured `account`, guards on its address,
signs the login challenge, posts to `/auth/wallet`, stores the token.
Any thrown error is caught and turned into the
`error.response?.data?.message || error.message || 'Authentication failed'`
result. -/
def authRest (st : SdkState) (env : SdkEnv) (store : Store) (ci : Bool) :
    SdkOutcome :=
  match st.account with
  | none => ⟨⟨false, none, some "No wallet connected"⟩, store, ci, false, none⟩
  | some acc =>
    if acc.address = "" then
      ⟨⟨false, none, some "No wallet connected"⟩, store, ci, false, none⟩
    else
      match signMessage st env (generateAuthMessage acc.address env.timestamp) with
      | (Except.error e, inv) =>
        ⟨⟨false, none, some (catchMessage e "Authentication failed")⟩,
          store, ci, inv, none⟩
      | (Except.ok s, inv) =>
        let req : VerifyRequest :=
          ⟨acc.address, some acc.publicKey, s.signature, s.fullMessage, s.nonce⟩
        match env.apiVerifyAuth with
        | Except.error e =>
          ⟨⟨false, none, some (catchMessage e "Authentication failed")⟩,
            store, ci, inv, some req⟩
        | Except.ok token =>
          ⟨⟨true, some token, none⟩, setItem store "token" token, ci, inv, some req⟩

/-- `authenticateWithWallet` of the SDK variant.  When the captured state
is not connected it first awaits `connect()` (whose failure is rethrown
into the outer catch); the continuation then reads the *same captured*
`account` value. -/
def authenticateWithWallet (st : SdkState) (env : SdkEnv) (store : Store) :
    SdkOutcome :=
  if !st.connected || st.account.isNone then
    match env.aptosConnect with
    | Except.error e =>
      ⟨⟨false, none, some (catchMessage e "Authentication failed")⟩,
        store, true, false, none⟩
    | Except.ok _ => authRest st env store true
  else
    authRest st env store false

/-- The tail of `linkWalletToAccount` after the optional connect attempt:
signs the link challenge, posts to `/auth/link-wallet`, and returns
`{success:true}` without touching `localStorage`.  Catch fallback is
`'Failed to link wallet'`. -/
def linkRest (st : SdkState) (env : SdkEnv) (store : Store) (ci : Bool) :
    SdkOutcome :=
  match st.account with
  | none => ⟨⟨false, none, some "No wallet connected"⟩, store, ci, false, none⟩
  | some acc =>
    if acc.address = "" then
      ⟨⟨false, none, some "No wallet connected"⟩, store, ci, false, none⟩
    else
      match signMessage st env (linkAuthMessage acc.address env.timestamp) with
      | (Except.error e, inv) =>
        ⟨⟨false, none, some (catchMessage e "Failed to link wallet")⟩,
          store, ci, inv, none⟩
      | (Except.ok s, inv) =>
        let req : VerifyRequest :=
          ⟨acc.address, some acc.publicKey, s.signature, s.fullMessage, s.nonce⟩
        match env.apiVerifyLink with
        | Except.error e =>
          ⟨⟨false, none, some (catchMessage e "Failed to link wallet")⟩,
            store, ci, inv, some req⟩
        | Except.ok _ =>
          ⟨⟨true, none, none⟩, store, ci, inv, some req⟩

/-- `linkWalletToAccount` of the SDK variant. -/
def linkWalletToAccount (st : SdkState) (env : SdkEnv) (store : Store) :
    SdkOutcome :=
  if !st.connected || st.account.isNone then
    match env.aptosConnect with
    | Except.error e =>
      ⟨⟨false, none, some (catchMessage e "Failed to link wallet")⟩,
        store, true, false, none⟩
    | Except.ok _ => linkRest st env store true
  else
    linkRest st env store false

/-- The `disconnect` callback of the SDK variant: awaits the adapter's
disconnect inside a try/catch that logs and rethrows, so its outcome is
exactly the adapter's outcome. -/
def disconnect (adapterDisconnect : Except JsError Unit) : Except JsError Unit :=
  match adapterDisconnect with
  | Except.error e => Except.error e
  | Except.ok _ => Except.ok ()

/-! ## Hand-rolled variant (the unnamed `walletService`-based context) -/

/-- React state of the hand-rolled context as captured by its callbacks. -/
structure P0State where
  isConnected : Bool
  address : Option String
  publicKey : Option String
  network : Option String
deriving Repr, DecidableEq

/-- Outcomes of the external calls awaited by the hand-rolled variant:
`walletService.connect`, `walletService.getNetwork`,
`walletService.signMessage`, and the two backend posts; plus the nonce
freshness token used by the spec-modelled challenge builder. -/
structure P0Env where
  wsConnect : Except JsError Account
  wsNetwork : String
  wsSign : Except JsError SignResult
  apiVerifyAuth : Except JsError String
  apiVerifyLink : Except JsError Unit
  nonce : String
deriving Repr

/-- The `{ success, address?, error? }` result of the hand-rolled
`connect` callback. -/
structure ConnectOutcome where
  success : Bool
  address : Option String
  error : Option String
deriving Repr, DecidableEq

/-- Result of one hand-rolled-variant call, with the final React state
and a trace of the invoked external operations. -/
structure P0Outcome where
  res : AuthResult
  store : Store
  finalState : P0State
  connectInvoked : Bool
  signInvoked : Bool
  verifyRequest : Option VerifyRequest
deriving Repr, DecidableEq

/-- Modelled from the spec: `walletService.disconnect` — the repository
ships no `walletService.js` under `src/`; per the connector contract it
is "idempotent — calling when already disconnected is a no-op, never
fails". -/
def wsDisconnect : Except JsError Unit :=
  Except.ok ()

/-- Modelled from the spec: `walletService.generateAuthMessage`
(`buildLoginChallenge`) — the repository ships no `walletService.js`
under `src/`; per the spec the message carries the fixed
"Sign this message to authenticate" application preamble, the address,
and a freshness token. -/
def wsGenerateAuthMessage (address nonce : String) : String :=
  "Sign this message to authenticate with LifeVault.\n\nWallet: " ++ address
    ++ "\nNonce: " ++ nonce

/-- The `connect` callback of the hand-rolled variant: on success it
fills the React state from the service account and network and reports
the address; its own catch converts a thrown error into
`{success:false, error: error.message}` while leaving the state as it
was. -/
def connectP0 (st : P0State) (env : P0Env) : ConnectOutcome × P0State :=
  match env.wsConnect with
  | Except.ok acc =>
    (⟨true, some acc.address, none⟩,
      { st with
          isConnected := true
          address := some acc.address
          publicKey := some acc.publicKey
          network := some env.wsNetwork })
  | Except.error e => (⟨false, none, e.message⟩, st)

/-- The `onAccountChange` handler of the hand-rolled variant: overwrites
address, publicKey and isConnected from the event payload. -/
def onAccountChangeHandlerP0 (st : P0State) (acc : Option Account) : P0State :=
  match acc with
  | some a =>
    { st with isConnected := true, address := some a.address, publicKey := some a.publicKey }
  | none =>
    { st with isConnected := false, address := none, publicKey := none }

/-- The `disconnect` callback of the hand-rolled variant: awaits the
service disconnect (spec-modelled, never failing) with no catch, then
nulls the connection state.  `network` is left as is, as in the source. -/
def disconnectP0 (st : P0State) : Except JsError P0State :=
  match wsDisconnect with
  | Except.error e => Except.error e
  | Except.ok _ =>
    Except.ok { st with isConnected := false, address := none, publicKey := none }

/-- The tail of the hand-rolled `authenticateWithWallet` after the
optional connect: `currentAddress` is the closure-captured `address`
or-else the live service account's address, the challenge is signed, the
body is posted to `/auth/wallet` and the token stored.  `midEvent`, when
present, is an account-change event delivered between the sign await and
the verify await: its handler rewrites the React state and the service
cache, but the continuation keeps using its `currentAddress` local.  The
catch computes `error.response?.data?.message || error.message` with no
further fallback. -/
def authRestP0 (stOrig stCur : P0State) (svc : Option Account) (env : P0Env)
    (midEvent : Option (Option Account)) (store : Store) (ci : Bool) : P0Outcome :=
  let currentAddress := jsOr stOrig.address (svc.map (fun a => a.address))
  if jsTruthy currentAddress then
    match env.wsSign with
    | Except.error e =>
      ⟨⟨false, none, jsOr e.respDataMessage e.message⟩, store, stCur, ci, true, none⟩
    | Except.ok s =>
      let svcLive := match midEvent with
        | some acc => acc
        | none => svc
      let stLive := match midEvent with
        | some acc => onAccountChangeHandlerP0 stCur acc
        | none => stCur
      let req : VerifyRequest :=
        ⟨currentAddress.getD "",
          jsOr stOrig.publicKey (svcLive.map (fun a => a.publicKey)),
          s.signature, s.fullMessage, s.nonce⟩
      match env.apiVerifyAuth with
      | Except.error e =>
        ⟨⟨false, none, jsOr e.respDataMessage e.message⟩, store, stLive, ci, true, some req⟩
      | Except.ok token =>
        ⟨⟨true, some token, none⟩, setItem store "token" token, stLive, ci, true, some req⟩
  else
    ⟨⟨false, none, some "No wallet address"⟩, store, stCur, ci, false, none⟩

/-- `authenticateWithWallet` of the hand-rolled variant.  `svc` is the
account cached in `walletService` when the call starts. -/
def authenticateWithWalletP0 (st : P0State) (svc : Option Account) (env : P0Env)
    (midEvent : Option (Option Account)) (store : Store) : P0Outcome :=
  if jsTruthy st.address then
    authRestP0 st st svc env midEvent store false
  else
    match connectP0 st env with
    | (cr, st1) =>
      if cr.success then
        let svc1 := match env.wsConnect with
          | Except.ok acc => some acc
          | Except.error _ => svc
        authRestP0 st st1 svc1 env midEvent store true
      else
        ⟨⟨false, none, cr.error⟩, store, st1, true, false, none⟩

/-- The tail of the hand-rolled `linkWalletToAccount`: signs the inline
link message and posts to `/auth/link-wallet`; no `localStorage` access
anywhere; catch again computes
`error.response?.data?.message || error.message` with no fallback. -/
def linkRestP0 (stOrig stCur : P0State) (svc : Option Account) (env : P0Env)
    (store : Store) (ci : Bool) : P0Outcome :=
  let currentAddress := jsOr stOrig.address (svc.map (fun a => a.address))
  if jsTruthy currentAddress then
    match env.wsSign with
    | Except.error e =>
      ⟨⟨false, none, jsOr e.respDataMessage e.message⟩, store, stCur, ci, true, none⟩
    | Except.ok s =>
      let req : VerifyRequest :=
        ⟨currentAddress.getD "",
          jsOr stOrig.publicKey (svc.map (fun a => a.publicKey)),
          s.signature, s.fullMessage, s.nonce⟩
      match env.apiVerifyLink with
      | Except.error e =>
        ⟨⟨false, none, jsOr e.respDataMessage e.message⟩, store, stCur, ci, true, some req⟩
      | Except.ok _ =>
        ⟨⟨true, none, none⟩, store, stCur, ci, true, some req⟩
  else
    ⟨⟨false, none, some "No wallet address"⟩, store, stCur, ci, false, none⟩

/-- `linkWalletToAccount` of the hand-rolled variant. -/
def linkWalletToAccountP0 (st : P0State) (svc : Option Account) (env : P0Env)
    (store : Store) : P0Outcome :=
  if jsTruthy st.address then
    linkRestP0 st st svc env store false
  else
    match connectP0 st env with
    | (cr, st1) =>
      if cr.success then
        let svc1 := match env.wsConnect with
          | Except.ok acc => some acc
          | Except.error _ => svc
        linkRestP0 st st1 svc1 env store true
      else
        ⟨⟨false, none, cr.error⟩, store, st1, true, false, none⟩

/-! ## API response interceptor (`src/services/api.js`) -/

/-- The axios response-error interceptor: on HTTP 401 it removes the
stored token and redirects to `/login`; the error is re-rejected either
way.  The middle component is the redirect target, if any. -/
def responseErrorInterceptor (e : JsError) (store : Store) :
    Store × Option String × JsError :=
  if e.respStatus = some 401 then
    (removeItem store "token", some "/login", e)
  else
    (store, none, e)

/-! ## Helper lemmas -/

theorem getItem_setItem (store : Store) (k v : String) :
    getItem (setItem store k v) k = some v := by
  simp [getItem, setItem]

theorem getItem_removeItem (store : Store) (k : String) :
    getItem (removeItem store k) k = none := by
  induction store with
  | nil => rfl
  | cons p rest ih =>
    by_cases h : p.1 = k
    · simp only [removeItem, getItem, List.filter] at ih ⊢
      simp [h, ih]
    · simp only [removeItem, getItem, List.filter] at ih ⊢
      simp [h, ih]

theorem generateAuthMessage_head (a : String) (t : Nat) :
    (generateAuthMessage a t).data.head? = some 'S' := rfl

theorem linkAuthMessage_head (a : String) (t : Nat) :
    (linkAuthMessage a t).data.head? = some 'L' := rfl

/-! ## Claim theorems -/

/-- C3: for every wallet address, the login challenge message and the
link challenge message built for that address (at any timestamps) are
never equal as strings: the login message starts with the
"Sign this message to authenticate" preamble and the link message with
the "Link this wallet to your account" preamble. -/
theorem login_link_messages_distinct (a : String) (t1 t2 : Nat) :
    generateAuthMessage a t1 ≠ linkAuthMessage a t2 := by
  intro h
  have h2 : (generateAuthMessage a t1).data.head? = (linkAuthMessage a t2).data.head? := by
    rw [h]
  rw [generateAuthMessage_head, linkAuthMessage_head] at h2
  exact absurd h2 (by decide)

/-- C6: `disconnect` is idempotent and total: with the provider
disconnect capability behaving per its contract (never failing), every
call succeeds, leaves the wallet session disconnected (address null,
connected false), and a second call in a row is a no-op returning the
same disconnected state; the SDK wrapper likewise surfaces no error. -/
theorem disconnect_idempotent_total (st : P0State) :
    ∃ st1, disconnectP0 st = Except.ok st1 ∧
      st1.isConnected = false ∧ st1.address = none ∧ st1.publicKey = none ∧
      disconnectP0 st1 = Except.ok st1 ∧
      disconnect (Except.ok ()) = Except.ok () :=
  ⟨_, rfl, rfl, rfl, rfl, rfl, rfl⟩

/-- C7: `signMessage` requires a connected wallet: for every message, if
the captured state is not connected or has no account, it fails with the
`Wallet not connected` error and the provider sign capability is not
invoked. -/
theorem signMessage_requires_connection (st : SdkState) (env : SdkEnv)
    (message : String) (h : st.connected = false ∨ st.account = none) :
    signMessage st env message =
      (Except.error ⟨some "Wallet not connected", none, none⟩, false) := by
  rcases h with h | h <;> simp [signMessage, h]

theorem signMessage_requires_connection_witness :
    signMessage ⟨false, some ⟨"0xABC", "pk"⟩⟩
        ⟨Except.ok (), Except.ok ⟨"sig", "full", "n1"⟩, Except.ok "tok", Except.ok (), 0⟩
        "msg" =
      (Except.error ⟨some "Wallet not connected", none, none⟩, false) :=
  signMessage_requires_connection _ _ "msg" (Or.inl rfl)

/-- C8: whenever a downstream API call rejects with HTTP status 401, the
response interceptor removes the stored token from the fixed `token` key
and redirects to the login entry point `/login`; on any other error the
store is left unchanged and no redirect happens. -/
theorem interceptor_401_clears_token (e : JsError) (store : Store) :
    (e.respStatus = some 401 →
      getItem (responseErrorInterceptor e store).1 "token" = none ∧
      (responseErrorInterceptor e store).2.1 = some "/login") ∧
    (e.respStatus ≠ some 401 →
      (responseErrorInterceptor e store).1 = store ∧
      (responseErrorInterceptor e store).2.1 = none) := by
  constructor
  · intro h
    simp [responseErrorInterceptor, h, getItem_removeItem]
  · intro h
    simp [responseErrorInterceptor, h]

theorem interceptor_401_clears_token_witness :
    (getItem (responseErrorInterceptor ⟨some "Unauthorized", none, some 401⟩
        [("token", "tok123")]).1 "token" = none ∧
      (responseErrorInterceptor ⟨some "Unauthorized", none, some 401⟩
        [("token", "tok123")]).2.1 = some "/login") ∧
    (responseErrorInterceptor ⟨some "Server error", none, some 500⟩
        [("token", "tok123")]).1 = [("token", "tok123")] :=
  ⟨(interceptor_401_clears_token ⟨some "Unauthorized", none, some 401⟩
      [("token", "tok123")]).1 rfl,
    ((interceptor_401_clears_token ⟨some "Server error", none, some 500⟩
      [("token", "tok123")]).2 (by decide)).1⟩

/-- C4: when the wallet is connected, signing succeeds, and the backend
verify call returns a body carrying `data.data.token = t`,
`authenticateWithWallet` returns `{success:true, token:t}` and the
durable store afterwards holds exactly `t` under the fixed `token` key. -/
theorem authenticate_success_stores_token (st : SdkState) (acc : Account)
    (env : SdkEnv) (store : Store) (s : SignResult) (t : String)
    (hc : st.connected = true) (ha : st.account = some acc) (haddr : acc.address ≠ "")
    (hs : env.aptosSign = Except.ok s) (hv : env.apiVerifyAuth = Except.ok t) :
    (authenticateWithWallet st env store).res = ⟨true, some t, none⟩ ∧
    getItem (authenticateWithWallet st env store).store "token" = some t := by
  obtain ⟨conn, acct⟩ := st
  simp only at hc ha
  subst hc
  subst ha
  simp [authenticateWithWallet, authRest, signMessage, haddr, hs, hv, getItem_setItem]

theorem authenticate_success_stores_token_witness :
    (authenticateWithWallet ⟨true, some ⟨"0xABC", "pk"⟩⟩
        ⟨Except.ok (), Except.ok ⟨"sig", "full", "n1"⟩, Except.ok "tok123", Except.ok (), 1000⟩
        []).res = ⟨true, some "tok123", none⟩ ∧
    getItem (authenticateWithWallet ⟨true, some ⟨"0xABC", "pk"⟩⟩
        ⟨Except.ok (), Except.ok ⟨"sig", "full", "n1"⟩, Except.ok "tok123", Except.ok (), 1000⟩
        []).store "token" = some "tok123" :=
  authenticate_success_stores_token _ ⟨"0xABC", "pk"⟩ _ _ ⟨"sig", "full", "n1"⟩ "tok123"
    rfl rfl (by decide) rfl rfl

/-- C10: in the SDK-backed variant, calling `authenticateWithWallet`
while no wallet is connected returns `{success:false,
error:'No wallet connected'}` even when the triggered connect succeeds:
the continuation reads the `account` value captured when the call began
(still null), so the sign step is never reached. -/
theorem sdk_cold_start_auth_no_wallet (env : SdkEnv) (store : Store)
    (hc : env.aptosConnect = Except.ok ()) :
    (authenticateWithWallet ⟨false, none⟩ env store).res =
      ⟨false, none, some "No wallet connected"⟩ ∧
    (authenticateWithWallet ⟨false, none⟩ env store).connectInvoked = true ∧
    (authenticateWithWallet ⟨false, none⟩ env store).signProviderInvoked = false := by
  simp [authenticateWithWallet, authRest, hc]

theorem sdk_cold_start_auth_no_wallet_witness :
    (authenticateWithWallet ⟨false, none⟩
        ⟨Except.ok (), Except.ok ⟨"sig", "full", "n1"⟩, Except.ok "tok123", Except.ok (), 1000⟩
        []).res = ⟨false, none, some "No wallet connected"⟩ ∧
    (authenticateWithWallet ⟨false, none⟩
        ⟨Except.ok (), Except.ok ⟨"sig", "full", "n1"⟩, Except.ok "tok123", Except.ok (), 1000⟩
        []).connectInvoked = true ∧
    (authenticateWithWallet ⟨false, none⟩
        ⟨Except.ok (), Except.ok ⟨"sig", "full", "n1"⟩, Except.ok "tok123", Except.ok (), 1000⟩
        []).signProviderInvoked = false :=
  sdk_cold_start_auth_no_wallet _ _ rfl

/-- C2 counterexample: with the provider absent (captured state
disconnected, adapter connect rejecting with a provider-unavailable
error), `authenticateWithWallet` *does* invoke the connect operation,
and the surfaced error is the connect error, not a
"No wallet connected" message. -/
theorem auth_not_installed_counterexample :
    (authenticateWithWallet ⟨false, none⟩
        ⟨Except.error ⟨some "Petra wallet is not installed", none, none⟩,
          Except.ok ⟨"sig", "full", "n1"⟩, Except.ok "tok", Except.ok (), 0⟩
        []).connectInvoked = true ∧
    (authenticateWithWallet ⟨false, none⟩
        ⟨Except.error ⟨some "Petra wallet is not installed", none, none⟩,
          Except.ok ⟨"sig", "full", "n1"⟩, Except.ok "tok", Except.ok (), 0⟩
        []).res.error = some "Petra wallet is not installed" := by decide

/-- C2 amended: when the captured state has no account (as after a cold
start with the provider not installed), `authenticateWithWallet` first
invokes the connect operation and then returns `{success:false}` without
ever reaching the sign step — with error `'No wallet connected'` when
connect does not throw, and with the connect error's unwrapped message
when it does. -/
theorem auth_disconnected_connects_then_fails (env : SdkEnv) (store : Store) :
    (authenticateWithWallet ⟨false, none⟩ env store).connectInvoked = true ∧
    (authenticateWithWallet ⟨false, none⟩ env store).res.success = false ∧
    (authenticateWithWallet ⟨false, none⟩ env store).signProviderInvoked = false ∧
    (env.aptosConnect = Except.ok () →
      (authenticateWithWallet ⟨false, none⟩ env store).res.error =
        some "No wallet connected") ∧
    (∀ e, env.aptosConnect = Except.error e →
      (authenticateWithWallet ⟨false, none⟩ env store).res.error =
        some (catchMessage e "Authentication failed")) := by
  obtain ⟨ac, as, av, al, ts⟩ := env
  cases ac <;> simp [authenticateWithWallet, authRest]

theorem auth_disconnected_connects_then_fails_witness :
    (authenticateWithWallet ⟨false, none⟩
        ⟨Except.ok (), Except.ok ⟨"sig", "full", "n1"⟩, Except.ok "tok", Except.ok (), 0⟩
        []).connectInvoked = true ∧
    (authenticateWithWallet ⟨false, none⟩
        ⟨Except.ok (), Except.ok ⟨"sig", "full", "n1"⟩, Except.ok "tok", Except.ok (), 0⟩
        []).res.error = some "No wallet connected" :=
  ⟨(auth_disconnected_connects_then_fails
      ⟨Except.ok (), Except.ok ⟨"sig", "full", "n1"⟩, Except.ok "tok", Except.ok (), 0⟩ []).1,
    (auth_disconnected_connects_then_fails
      ⟨Except.ok (), Except.ok ⟨"sig", "full", "n1"⟩, Except.ok "tok", Except.ok (), 0⟩
      []).2.2.2.1 rfl⟩

/-- C5: `linkWalletToAccount` (both variants) never writes the durable
store — in particular the `token` slot is untouched regardless of any
existing login session — and, when the wallet is connected, signing
succeeds and the backend link call succeeds, it returns
`{success:true}`. -/
theorem link_never_touches_token_store :
    (∀ st env store, (linkWalletToAccount st env store).store = store) ∧
    (∀ st svc env store, (linkWalletToAccountP0 st svc env store).store = store) ∧
    (∀ st acc env store s, st.connected = true → st.account = some acc →
      acc.address ≠ "" → env.aptosSign = Except.ok s →
      env.apiVerifyLink = Except.ok () →
      (linkWalletToAccount st env store).res = ⟨true, none, none⟩) := by
  refine ⟨?_, ?_, ?_⟩
  · intro st env store
    obtain ⟨conn, acct⟩ := st
    obtain ⟨ac, as, av, al, ts⟩ := env
    cases conn <;> cases acct <;> cases ac <;> cases as <;> cases al <;>
      simp [linkWalletToAccount, linkRest, signMessage] <;> split_ifs <;> simp
  · intro st svc env store
    obtain ⟨wc, wn, ws, av, al, nn⟩ := env
    cases wc <;> cases ws <;> cases al <;>
      simp [linkWalletToAccountP0, linkRestP0, connectP0] <;> split_ifs <;> simp
  · intro st acc env store s hc ha haddr hs hl
    obtain ⟨conn, acct⟩ := st
    simp only at hc ha
    subst hc
    subst ha
    simp [linkWalletToAccount, linkRest, signMessage, haddr, hs, hl]

theorem link_never_touches_token_store_witness :
    (linkWalletToAccount ⟨true, some ⟨"0xABC", "pk"⟩⟩
        ⟨Except.ok (), Except.ok ⟨"sig", "full", "n1"⟩, Except.ok "tok", Except.ok (), 0⟩
        [("token", "existing")]).store = [("token", "existing")] ∧
    (linkWalletToAccount ⟨true, some ⟨"0xABC", "pk"⟩⟩
        ⟨Except.ok (), Except.ok ⟨"sig", "full", "n1"⟩, Except.ok "tok", Except.ok (), 0⟩
        [("token", "existing")]).res = ⟨true, none, none⟩ :=
  ⟨link_never_touches_token_store.1 ⟨true, some ⟨"0xABC", "pk"⟩⟩
      ⟨Except.ok (), Except.ok ⟨"sig", "full", "n1"⟩, Except.ok "tok", Except.ok (), 0⟩
      [("token", "existing")],
    link_never_touches_token_store.2.2 ⟨true, some ⟨"0xABC", "pk"⟩⟩ ⟨"0xABC", "pk"⟩
      ⟨Except.ok (), Except.ok ⟨"sig", "full", "n1"⟩, Except.ok "tok", Except.ok (), 0⟩
      [("token", "existing")] ⟨"sig", "full", "n1"⟩ rfl rfl (by decide) rfl rfl⟩

/-- C1 counterexample: in the hand-rolled variant, a sign failure whose
thrown value carries no `message` (and no backend payload) yields
`{success:false}` with *no* error string at all — the catch block
computes `error.response?.data?.message || error.message` with no
generic fallback. -/
theorem error_contract_counterexample :
    (authenticateWithWalletP0 ⟨true, some "0xA", some "pk", none⟩ (some ⟨"0xA", "pk"⟩)
        ⟨Except.ok ⟨"0xA", "pk"⟩, "testnet", Except.error ⟨none, none, none⟩,
          Except.ok "tok", Except.ok (), "n1"⟩
        none []).res.success = false ∧
    (authenticateWithWalletP0 ⟨true, some "0xA", some "pk", none⟩ (some ⟨"0xA", "pk"⟩)
        ⟨Except.ok ⟨"0xA", "pk"⟩, "testnet", Except.error ⟨none, none, none⟩,
          Except.ok "tok", Except.ok (), "n1"⟩
        none []).res.error = none := by decide

/-- C1 amended: neither function ever propagates an exception; on every
failure both return `{success:false}` with the error computed as the
backend payload message or-else the thrown error's own message.  The
SDK-backed variant additionally falls back to a generic message
(`Authentication failed` / `Failed to link wallet`), so its error field
is always a string; the hand-rolled variant applies no generic fallback,
so its error field is exactly the or-chain and may be absent. -/
theorem error_contract_amended :
    (∀ st env store, (authenticateWithWallet st env store).res.success = false →
      ∃ s, (authenticateWithWallet st env store).res.error = some s) ∧
    (∀ st env store, (linkWalletToAccount st env store).res.success = false →
      ∃ s, (linkWalletToAccount st env store).res.error = some s) ∧
    (∀ st acc env store e, st.connected = true → st.account = some acc →
      acc.address ≠ "" → env.aptosSign = Except.error e →
      (authenticateWithWallet st env store).res.error =
        some (catchMessage e "Authentication failed")) ∧
    (∀ st acc env store s e, st.connected = true → st.account = some acc →
      acc.address ≠ "" → env.aptosSign = Except.ok s →
      env.apiVerifyAuth = Except.error e →
      (authenticateWithWallet st env store).res.error =
        some (catchMessage e "Authentication failed")) ∧
    (∀ st acc env store e, st.connected = true → st.account = some acc →
      acc.address ≠ "" → env.aptosSign = Except.error e →
      (linkWalletToAccount st env store).res.error =
        some (catchMessage e "Failed to link wallet")) ∧
    (∀ st svc env store e, jsTruthy st.address = true →
      env.wsSign = Except.error e →
      (authenticateWithWalletP0 st svc env none store).res =
        ⟨false, none, jsOr e.respDataMessage e.message⟩) ∧
    (∀ st svc env store s e, jsTruthy st.address = true →
      env.wsSign = Except.ok s → env.apiVerifyAuth = Except.error e →
      (authenticateWithWalletP0 st svc env none store).res =
        ⟨false, none, jsOr e.respDataMessage e.message⟩) := by
  refine ⟨?_, ?_, ?_, ?_, ?_, ?_, ?_⟩
  · intro st env store
    obtain ⟨conn, acct⟩ := st
    obtain ⟨ac, as, av, al, ts⟩ := env
    cases conn <;> cases acct <;> cases ac <;> cases as <;> cases av <;>
      simp [authenticateWithWallet, authRest, signMessage] <;> split_ifs <;> simp
  · intro st env store
    obtain ⟨conn, acct⟩ := st
    obtain ⟨ac, as, av, al, ts⟩ := env
    cases conn <;> cases acct <;> cases ac <;> cases as <;> cases al <;>
      simp [linkWalletToAccount, linkRest, signMessage] <;> split_ifs <;> simp
  · intro st acc env store e hc ha haddr hs
    obtain ⟨conn, acct⟩ := st
    simp only at hc ha
    subst hc
    subst ha
    simp [authenticateWithWallet, authRest, signMessage, haddr, hs]
  · intro st acc env store s e hc ha haddr hs hv
    obtain ⟨conn, acct⟩ := st
    simp only at hc ha
    subst hc
    subst ha
    simp [authenticateWithWallet, authRest, signMessage, haddr, hs, hv]
  · intro st acc env store e hc ha haddr hs
    obtain ⟨conn, acct⟩ := st
    simp only at hc ha
    subst hc
    subst ha
    simp [linkWalletToAccount, linkRest, signMessage, haddr, hs]
  · intro st svc env store e ha hs
    have htr : jsTruthy (jsOr st.address (svc.map (fun a => a.address))) = true := by
      simp [jsOr, ha]
    simp [authenticateWithWalletP0, authRestP0, ha, hs, htr]
  · intro st svc env store s e ha hs hv
    have htr : jsTruthy (jsOr st.address (svc.map (fun a => a.address))) = true := by
      simp [jsOr, ha]
    simp [authenticateWithWalletP0, authRestP0, ha, hs, hv, htr]

theorem error_contract_amended_witness :
    (authenticateWithWallet ⟨true, some ⟨"0xABC", "pk"⟩⟩
        ⟨Except.ok (), Except.error ⟨some "User rejected the request", none, none⟩,
          Except.ok "tok", Except.ok (), 0⟩
        []).res.error = some "User rejected the request" :=
  error_contract_amended.2.2.1 ⟨true, some ⟨"0xABC", "pk"⟩⟩ ⟨"0xABC", "pk"⟩
    ⟨Except.ok (), Except.error ⟨some "User rejected the request", none, none⟩,
      Except.ok "tok", Except.ok (), 0⟩
    [] ⟨some "User rejected the request", none, none⟩ rfl rfl (by decide) rfl

/-- C9 counterexample: with an account-change event delivered between
the sign await and the verify await (the final state indeed shows the
new address `0xBBB`), the pending `authenticateWithWallet` call still
posts the verify request with the stale address `0xAAA` and resolves
with `success:true`, not with a SessionChanged failure. -/
theorem midflight_change_counterexample :
    (authenticateWithWalletP0 ⟨true, some "0xAAA", some "pkA", some "testnet"⟩
        (some ⟨"0xAAA", "pkA"⟩)
        ⟨Except.ok ⟨"0xAAA", "pkA"⟩, "testnet", Except.ok ⟨"sig", "full", "n1"⟩,
          Except.ok "tok", Except.ok (), "n1"⟩
        (some (some ⟨"0xBBB", "pkB"⟩)) []).res.success = true ∧
    ((authenticateWithWalletP0 ⟨true, some "0xAAA", some "pkA", some "testnet"⟩
        (some ⟨"0xAAA", "pkA"⟩)
        ⟨Except.ok ⟨"0xAAA", "pkA"⟩, "testnet", Except.ok ⟨"sig", "full", "n1"⟩,
          Except.ok "tok", Except.ok (), "n1"⟩
        (some (some ⟨"0xBBB", "pkB"⟩)) []).verifyRequest).map (fun r => r.address) =
      some "0xAAA" ∧
    (authenticateWithWalletP0 ⟨true, some "0xAAA", some "pkA", some "testnet"⟩
        (some ⟨"0xAAA", "pkA"⟩)
        ⟨Except.ok ⟨"0xAAA", "pkA"⟩, "testnet", Except.ok ⟨"sig", "full", "n1"⟩,
          Except.ok "tok", Except.ok (), "n1"⟩
        (some (some ⟨"0xBBB", "pkB"⟩)) []).finalState.address = some "0xBBB" := by decide

/-- C9 amended: an account-change event firing between sign and verify
does not abort the in-flight attempt: its handler only rewrites the
context state, while the attempt's result, the address posted to the
verify endpoint (the one captured before the event), and the resulting
store are all identical to a run without the event. -/
theorem midflight_change_does_not_abort (st : P0State) (svc : Option Account)
    (env : P0Env) (ev : Option (Option Account)) (store : Store) :
    (authenticateWithWalletP0 st svc env ev store).res =
      (authenticateWithWalletP0 st svc env none store).res ∧
    ((authenticateWithWalletP0 st svc env ev store).verifyRequest).map (fun r => r.address) =
      ((authenticateWithWalletP0 st svc env none store).verifyRequest).map (fun r => r.address) ∧
    (authenticateWithWalletP0 st svc env ev store).store =
      (authenticateWithWalletP0 st svc env none store).store := by
  obtain ⟨wc, wn, ws, av, al, nn⟩ := env
  cases wc <;> cases ws <;> cases av <;>
    simp [authenticateWithWalletP0, authRestP0, connectP0] <;> split_ifs <;> simp

theorem login_link_messages_distinct_witness :
    generateAuthMessage "0xABC" 1000 ≠ linkAuthMessage "0xABC" 2000 :=
  login_link_messages_distinct "0xABC" 1000 2000
